import Mathlib

/-!
Shallow embedding of slixmpp's XEP-0223 plugin
(`src/data/CVE-2019-1000021/after/slixmpp/plugins/xep_0223.py`): the
`configure`, `store` and `retrieve` operations of class `XEP_0223`, together
with the parts of their collaborators (the XEP-0004 data-form library and the
XEP-0060/0163 pub-sub operations) that the plugin touches.  The collaborators
are not part of the source tree, so they are modelled from the specification's
description of their interfaces; the plugin's own code is translated line by
line.  A first, purely functional embedding settles the value-level claims; a
second, heap-passing embedding of `store` and `retrieve` settles the claims
about in-place mutation and object identity.
-/

/-- Value carried by a data-form field: the profile uses a boolean and a
string, so a field value is one of the two. -/
inductive Value where
  | b (x : Bool)
  | s (x : String)
deriving DecidableEq, Repr

/-- Modelled from the spec: a field of a data form (§3 "Form"), identified by
its `var` name, with an optional `type` and an optional `value` (slixmpp's
`add_field(var=...)` with no value leaves the value unset). -/
structure FormField where
  var : String
  ftype : Option String
  value : Option Value
deriving DecidableEq, Repr

/-- Modelled from the spec: a data form (§3 "Form"): an ordered sequence of
fields plus the form's own `type` attribute (set by `form['type'] = 'submit'`
in the plugin). -/
structure Form where
  ftype : Option String
  fields : List FormField
deriving DecidableEq, Repr

/-- Membership test on a form's field names: models `field in form['fields']`,
a key lookup in the var-keyed field dictionary. -/
def Form.hasField (fm : Form) (v : String) : Bool :=
  fm.fields.any (fun f => f.var == v)

/-- Value of the field named `v`: models reading
`form.get_fields()[v]['value']`.  Returns `none` when the field is absent or
has no value. -/
def Form.getValue (fm : Form) (v : String) : Option Value :=
  (fm.fields.find? (fun f => f.var == v)).bind FormField.value

/-- Replace the value of the first field named `v` in a field list; the list
is unchanged when no field is named `v`. -/
def setFirst (fs : List FormField) (v : String) (val : Option Value) : List FormField :=
  match fs with
  | [] => []
  | f :: rest =>
      if f.var == v then { f with value := val } :: rest
      else f :: setFirst rest v val

/-- Models `form.get_fields()[v]['value'] = val`: overwrite the value of the
(existing) field named `v`. -/
def Form.setFieldValue (fm : Form) (v : String) (val : Value) : Form :=
  { fm with fields := setFirst fm.fields v (some val) }

/-- Modelled from the spec: the Form Builder's add-field operation (§3, §6):
"adding a field whose `var` already exists must update the existing field's
value in place rather than duplicate it"; otherwise the field is appended,
preserving order. -/
def Form.addField (fm : Form) (v : String) (ft : Option String) (val : Option Value) : Form :=
  if fm.hasField v then { fm with fields := setFirst fm.fields v val }
  else { fm with fields := fm.fields ++ [⟨v, ft, val⟩] }

/-- Modelled from the spec: Python truthiness of a Form object, used by
`store`'s `if not options:`.  The stanza base class is outside the source
tree; per the spec (§4.2) a caller-supplied options object is "accepted
as-is", i.e. every Form object is truthy. -/
def Form.pyTruthy (fm : Form) : Bool := true

/-- The fixed storage profile of `XEP_0223`
(`profile = {'pubsub#persist_items': True, 'pubsub#access_model': 'whitelist'}`),
as the ordered key/value sequence the plugin iterates over. -/
def profile : List (String × Value) :=
  [("pubsub#persist_items", Value.b true),
   ("pubsub#access_model", Value.s "whitelist")]

/-- The publish-options namespace constant used for the synthesized
FORM_TYPE field. -/
def publishOptionsNS : String := "http://jabber.org/protocol/pubsub#publish-options"

/-- The options form `store` synthesizes when none is supplied:
`Form()`, `options['type'] = 'submit'`,
`options.add_field(var='FORM_TYPE', ftype='hidden', value=NS)`. -/
def synthesizedOptions : Form :=
  Form.addField { ftype := some "submit", fields := [] }
    "FORM_TYPE" (some "hidden") (some (Value.s publishOptionsNS))

/-- One iteration of the profile-merge loop of `store` (lines 78-81):
`if field not in fields: options.add_field(var=field)` — where `fields` is the
snapshot taken before the loop — then
`options.get_fields()[field]['value'] = value`. -/
def mergeStep (snapshot : List FormField) (o : Form) (fv : String × Value) : Form :=
  (if snapshot.any (fun f => f.var == fv.1) then o
   else o.addField fv.1 none none).setFieldValue fv.1 fv.2

/-- The profile-merge loop of `store` (lines 77-81):
`fields = options['fields']` takes a snapshot of the var-keyed field
dictionary, then the loop body runs for each `(field, value)` of the
profile in order. -/
def mergeProfile (options : Form) : Form :=
  profile.foldl (mergeStep options.fields) options

/-- Modelled from the spec: the downstream publish operation's parameters
(§6: `publish(item, node?, itemId?, options, sender?, timeout?)`), as
received from `store`'s delegation.  Callback parameters are opaque
passthroughs and are omitted. -/
structure PublishCall where
  item : String
  node : Option String
  id : Option String
  options : Form
  ifrom : Option String
  timeout : Option Nat
deriving DecidableEq, Repr

/-- The `store` method (lines 47-86) as a function from its arguments to the
downstream publish call: synthesize options when `not options`, merge the
profile into the options, then delegate
`publish(stanza, node, options=options, ifrom=ifrom, timeout=timeout)` —
note that the `id` argument is not forwarded, so publish's `id` parameter
keeps its default `None`. -/
def store (stanza : String) (node : Option String) (id : Option String)
    (ifrom : Option String) (options : Option Form) (timeout : Option Nat) :
    PublishCall :=
  let opts : Form :=
    match options with
    | none => synthesizedOptions
    | some o => if o.pyTruthy then o else synthesizedOptions
  let merged := mergeProfile opts
  { item := stanza, node := node, id := none, options := merged,
    ifrom := ifrom, timeout := timeout }

/-- Modelled from the spec: the downstream set-node-configuration operation's
parameters (§6: `setNodeConfig(owner?, node, form, sender?, timeout?)`), as
received from `configure`'s delegation. -/
structure SetNodeConfigCall where
  jid : Option String
  node : String
  config : Form
  ifrom : Option String
  timeout : Option Nat
deriving DecidableEq, Repr

/-- The `configure` method (lines 31-45): build a submission-type form, add a
field for every profile entry, delegate `set_node_config(None, node, config,
ifrom=ifrom, timeout=timeout)`. -/
def configure (node : String) (ifrom : Option String) (timeout : Option Nat) :
    SetNodeConfigCall :=
  let config : Form :=
    profile.foldl (fun c fv => c.addField fv.1 none (some fv.2))
      { ftype := some "submit", fields := [] }
  { jid := none, node := node, config := config, ifrom := ifrom, timeout := timeout }

/-- Modelled from the spec: the downstream get-items operation's parameters
(§6: `getItems(owner?, node, itemIds, sender?, timeout?)`), as received from
`retrieve`'s delegation. -/
structure GetItemsCall where
  jid : Option String
  node : String
  item_ids : List String
  ifrom : Option String
  timeout : Option Nat
deriving DecidableEq, Repr

/-- The `retrieve` method (lines 88-116) as a function from its arguments to
the downstream get-items call: `item_ids = []` when `item_ids is None`,
`item_ids.append(id)` when `id is not None`, then delegate
`get_items(None, node, item_ids=item_ids, ifrom=ifrom, timeout=timeout)`. -/
def retrieve (node : String) (id : Option String) (item_ids : Option (List String))
    (ifrom : Option String) (timeout : Option Nat) : GetItemsCall :=
  let ids0 := match item_ids with | none => [] | some l => l
  let ids := match id with | none => ids0 | some x => ids0 ++ [x]
  { jid := none, node := node, item_ids := ids, ifrom := ifrom, timeout := timeout }

/-!
Heap-passing embedding.  Python passes the `options` form and the `item_ids`
list by reference and the plugin mutates them, so the claims about in-place
mutation and object identity are stated over explicit heaps: a heap of list
objects (`Nat → List String`) for `retrieve` and a heap of form objects for
`store`, with a reference being a `Nat` address.
-/

/-- Heap of form objects: the store maps addresses to forms, and `next` is
the next fresh address used when a new form object is constructed. -/
structure FormHeap where
  mem : Nat → Form
  next : Nat

/-- Modelled from the spec: the downstream publish operation's parameters as
in `PublishCall`, here with the options both as the reference that is handed
over (`optionsRef`) and as the form value it holds at hand-over time
(`optionsVal`). -/
structure PublishCallRef where
  item : String
  node : Option String
  id : Option String
  optionsRef : Nat
  optionsVal : Form
  ifrom : Option String
  timeout : Option Nat

/-- The `store` method over the form heap: when `not options`, a fresh form
object holding `synthesizedOptions` is allocated; otherwise the merge loop
mutates the caller's object in place (net effect: the form at the caller's
address becomes its `mergeProfile`), and that same object is handed to
publish. -/
def storeS (h : FormHeap) (stanza : String) (node : Option String)
    (id : Option String) (ifrom : Option String) (options : Option Nat)
    (timeout : Option Nat) : FormHeap × PublishCallRef :=
  let hr : FormHeap × Nat :=
    match options with
    | none =>
        (⟨fun a => if a = h.next then synthesizedOptions else h.mem a, h.next + 1⟩,
         h.next)
    | some r =>
        if (h.mem r).pyTruthy then (h, r)
        else
          (⟨fun a => if a = h.next then synthesizedOptions else h.mem a, h.next + 1⟩,
           h.next)
  let h2 : FormHeap :=
    ⟨fun a => if a = hr.2 then mergeProfile (hr.1.mem hr.2) else hr.1.mem a, hr.1.next⟩
  (h2, { item := stanza, node := node, id := none, optionsRef := hr.2,
         optionsVal := h2.mem hr.2, ifrom := ifrom, timeout := timeout })

/-- The `retrieve` method over the heap of list objects: `item_ids = []`
binds a fresh local list when the caller supplied none, while
`item_ids.append(id)` mutates the caller's list object in place when a
reference was supplied; the list handed to get-items is read at hand-over
time. -/
def retrieveS (sig : Nat → List String) (node : String) (id : Option String)
    (item_ids : Option Nat) (ifrom : Option String) (timeout : Option Nat) :
    (Nat → List String) × GetItemsCall :=
  match item_ids with
  | none =>
      let ids := match id with | none => [] | some x => [x]
      (sig, { jid := none, node := node, item_ids := ids, ifrom := ifrom,
              timeout := timeout })
  | some r =>
      match id with
      | none =>
          (sig, { jid := none, node := node, item_ids := sig r, ifrom := ifrom,
                  timeout := timeout })
      | some x =>
          let sig2 := fun a => if a = r then sig r ++ [x] else sig a
          (sig2, { jid := none, node := node, item_ids := sig2 r, ifrom := ifrom,
                   timeout := timeout })

/-! Helper lemmas about the form operations. -/

/-- `setFirst` does not change the sequence of field names. -/
theorem setFirst_map_var (fs : List FormField) (w : String) (val : Option Value) :
    (setFirst fs w val).map FormField.var = fs.map FormField.var := by
  induction fs with
  | nil => rfl
  | cons f rest ih =>
      by_cases h : f.var = w
      · simp [setFirst, h]
      · simp [setFirst, h, ih]

/-- `setFirst` does not change which field names occur. -/
theorem any_var_setFirst (fs : List FormField) (w v : String) (val : Option Value) :
    (setFirst fs w val).any (fun f => f.var == v) = fs.any (fun f => f.var == v) := by
  induction fs with
  | nil => rfl
  | cons f rest ih =>
      by_cases h : f.var = w
      · simp [setFirst, h]
      · simp [setFirst, h, ih]

/-- After `setFirst fs w (some val)` on a list that has a field named `w`,
looking up `w` yields the value `val`. -/
theorem find_setFirst_value (fs : List FormField) (w : String) (val : Value)
    (h : fs.any (fun f => f.var == w) = true) :
    ((setFirst fs w (some val)).find? (fun f => f.var == w)).bind FormField.value
      = some val := by
  induction fs with
  | nil => simp at h
  | cons f rest ih =>
      by_cases hf : f.var = w
      · simp [setFirst, hf]
      · simp only [List.any_cons] at h
        have h2 : rest.any (fun f => f.var == w) = true := by
          simpa [hf] using h
        simp [setFirst, hf, ih h2]

/-- `setFirst` at name `w` does not disturb lookups of a different name. -/
theorem find_setFirst_ne (fs : List FormField) (v w : String) (val : Option Value)
    (hne : v ≠ w) :
    (setFirst fs w val).find? (fun f => f.var == v)
      = fs.find? (fun f => f.var == v) := by
  induction fs with
  | nil => rfl
  | cons f rest ih =>
      by_cases hf : f.var = w
      · have hfw : (f.var == w) = true := by simp [hf]
        have hfv : (f.var == v) = false := by
          rw [hf]; exact beq_eq_false_iff_ne.mpr (Ne.symm hne)
        simp only [setFirst]
        rw [if_pos hfw]
        simp [List.find?_cons, hfv]
      · have hfw : (f.var == w) = false := beq_eq_false_iff_ne.mpr hf
        by_cases hv : f.var = v
        · simp [setFirst, hfw, List.find?_cons, hv, hne]
        · have hfv : (f.var == v) = false := beq_eq_false_iff_ne.mpr hv
          simp [setFirst, hfw, List.find?_cons, hfv, ih]

/-- If the first field named `w` already carries the value `val`, `setFirst`
is the identity. -/
theorem setFirst_eq_self (fs : List FormField) (w : String) (val : Option Value)
    (h : ∀ g, fs.find? (fun f => f.var == w) = some g → g.value = val) :
    setFirst fs w val = fs := by
  induction fs with
  | nil => rfl
  | cons f rest ih =>
      by_cases hf : f.var = w
      · have hfind : (f :: rest).find? (fun f => f.var == w) = some f := by
          simp [List.find?_cons, hf]
        have hval : f.value = val := h f hfind
        have hrepl : ({ f with value := val } : FormField) = f := by rw [← hval]
        have hfw : (f.var == w) = true := by simp [hf]
        simp only [setFirst]
        rw [if_pos hfw, hrepl]
      · have hrest : ∀ g, rest.find? (fun f => f.var == w) = some g → g.value = val := by
          intro g hg
          apply h
          simpa [List.find?_cons, hf] using hg
        simp [setFirst, hf, ih hrest]

/-- Appending a field named differently from `v` does not disturb lookups
of `v`. -/
theorem find_append_single_ne (fs : List FormField) (g : FormField) (v : String)
    (h : (g.var == v) = false) :
    (fs ++ [g]).find? (fun f => f.var == v) = fs.find? (fun f => f.var == v) := by
  induction fs with
  | nil => simp [List.find?_cons, h]
  | cons f rest ih =>
      by_cases hv : f.var = v
      · simp [List.find?_cons, hv]
      · simp [List.find?_cons, beq_eq_false_iff_ne.mpr hv, ih]

/-- Overwriting a field's value does not change which names are present. -/
theorem hasField_setFieldValue (fm : Form) (w v : String) (val : Value) :
    (fm.setFieldValue w val).hasField v = fm.hasField v :=
  any_var_setFirst fm.fields w v (some val)

/-- After `addField v`, the name `v` is present. -/
theorem hasField_addField_self (fm : Form) (v : String) (ft : Option String)
    (val : Option Value) : (fm.addField v ft val).hasField v = true := by
  unfold Form.addField
  by_cases h : fm.hasField v = true
  · rw [if_pos h]
    show (setFirst fm.fields v val).any (fun f => f.var == v) = true
    rw [any_var_setFirst]
    exact h
  · rw [if_neg h]
    show (fm.fields ++ [FormField.mk v ft val]).any (fun f => f.var == v) = true
    simp [List.any_append]

/-- `addField w` does not change the presence of a different name `v`. -/
theorem hasField_addField_ne (fm : Form) (w v : String) (ft : Option String)
    (val : Option Value) (hne : w ≠ v) :
    (fm.addField w ft val).hasField v = fm.hasField v := by
  unfold Form.addField
  by_cases h : fm.hasField w = true
  · rw [if_pos h]
    exact any_var_setFirst fm.fields w v val
  · rw [if_neg h]
    show (fm.fields ++ [FormField.mk w ft val]).any (fun f => f.var == v) = fm.hasField v
    simp [List.any_append, beq_eq_false_iff_ne.mpr hne, Form.hasField]

/-- Overwriting the value of a present field makes its lookup yield the new
value. -/
theorem getValue_setFieldValue_self (fm : Form) (w : String) (val : Value)
    (h : fm.hasField w = true) :
    (fm.setFieldValue w val).getValue w = some val :=
  find_setFirst_value fm.fields w val h

/-- Overwriting the value of field `w` does not disturb lookups of a
different name `v`. -/
theorem getValue_setFieldValue_ne (fm : Form) (w v : String) (val : Value)
    (hne : v ≠ w) :
    (fm.setFieldValue w val).getValue v = fm.getValue v := by
  show ((setFirst fm.fields w (some val)).find? (fun f => f.var == v)).bind FormField.value
    = fm.getValue v
  rw [find_setFirst_ne fm.fields v w (some val) hne]
  rfl

/-- `addField w` does not disturb lookups of a different name `v`. -/
theorem getValue_addField_ne (fm : Form) (w v : String) (ft : Option String)
    (val : Option Value) (hne : v ≠ w) :
    (fm.addField w ft val).getValue v = fm.getValue v := by
  unfold Form.addField
  by_cases h : fm.hasField w = true
  · rw [if_pos h]
    show ((setFirst fm.fields w val).find? (fun f => f.var == v)).bind FormField.value
      = fm.getValue v
    rw [find_setFirst_ne fm.fields v w val hne]
    rfl
  · rw [if_neg h]
    show ((fm.fields ++ [FormField.mk w ft val]).find? (fun f => f.var == v)).bind FormField.value
      = fm.getValue v
    rw [find_append_single_ne fm.fields (FormField.mk w ft val) v
      (beq_eq_false_iff_ne.mpr (by simpa using hne.symm))]
    rfl

/-- A merge step for key `k` leaves the looked-up value of `k` at the
profile's value, provided the snapshot test implies the key is present
(which holds whenever the snapshot is the merged form's own field list or an
earlier list with no more names). -/
theorem mergeStep_getValue_self (snap : List FormField) (o : Form) (k : String)
    (v : Value) (h : snap.any (fun f => f.var == k) = true → o.hasField k = true) :
    (mergeStep snap o (k, v)).getValue k = some v := by
  unfold mergeStep
  by_cases hc : snap.any (fun f => f.var == k) = true
  · rw [if_pos hc]
    exact getValue_setFieldValue_self o k v (h hc)
  · rw [if_neg hc]
    exact getValue_setFieldValue_self _ k v (hasField_addField_self o k none none)

/-- A merge step for key `k` does not disturb lookups of a different key. -/
theorem mergeStep_getValue_ne (snap : List FormField) (o : Form) (k : String)
    (v : Value) (w : String) (hne : w ≠ k) :
    (mergeStep snap o (k, v)).getValue w = o.getValue w := by
  unfold mergeStep
  by_cases hc : snap.any (fun f => f.var == k) = true
  · rw [if_pos hc]
    exact getValue_setFieldValue_ne o k w v hne
  · rw [if_neg hc]
    rw [getValue_setFieldValue_ne _ k w v hne]
    exact getValue_addField_ne o k w none none hne

/-- A merge step for key `k` makes `k` present, under the same snapshot
proviso as `mergeStep_getValue_self`. -/
theorem mergeStep_hasField_self (snap : List FormField) (o : Form) (k : String)
    (v : Value) (h : snap.any (fun f => f.var == k) = true → o.hasField k = true) :
    (mergeStep snap o (k, v)).hasField k = true := by
  unfold mergeStep
  by_cases hc : snap.any (fun f => f.var == k) = true
  · rw [if_pos hc, hasField_setFieldValue]
    exact h hc
  · rw [if_neg hc, hasField_setFieldValue]
    exact hasField_addField_self o k none none

/-- A merge step for key `k` does not change the presence of a different
key. -/
theorem mergeStep_hasField_ne (snap : List FormField) (o : Form) (k : String)
    (v : Value) (w : String) (hne : k ≠ w) :
    (mergeStep snap o (k, v)).hasField w = o.hasField w := by
  unfold mergeStep
  by_cases hc : snap.any (fun f => f.var == k) = true
  · rw [if_pos hc, hasField_setFieldValue]
  · rw [if_neg hc, hasField_setFieldValue]
    exact hasField_addField_ne o k w none none hne

/-- A merge step whose key is present in the snapshot and already carries the
step's value is the identity. -/
theorem mergeStep_id (snap : List FormField) (o : Form) (k : String) (v : Value)
    (hc : snap.any (fun f => f.var == k) = true)
    (hval : o.getValue k = some v) :
    mergeStep snap o (k, v) = o := by
  unfold mergeStep
  rw [if_pos hc]
  show { o with fields := setFirst o.fields k (some v) } = o
  have h : ∀ g, o.fields.find? (fun f => f.var == k) = some g → g.value = some v := by
    intro g hg
    have hv := hval
    unfold Form.getValue at hv
    rw [hg] at hv
    simpa using hv
  rw [setFirst_eq_self o.fields k (some v) h]

/-- `mergeProfile` unfolded over the two profile entries. -/
theorem mergeProfile_eq (o : Form) :
    mergeProfile o =
      mergeStep o.fields
        (mergeStep o.fields o ("pubsub#persist_items", Value.b true))
        ("pubsub#access_model", Value.s "whitelist") := rfl

/-- The two profile keys are distinct names. -/
theorem profile_keys_ne : "pubsub#persist_items" ≠ "pubsub#access_model" := by
  decide

/-- After the merge, `pubsub#persist_items` reads back the profile's value. -/
theorem mergeProfile_getValue_persist (o : Form) :
    (mergeProfile o).getValue "pubsub#persist_items" = some (Value.b true) := by
  rw [mergeProfile_eq]
  rw [mergeStep_getValue_ne _ _ _ _ _ profile_keys_ne]
  exact mergeStep_getValue_self o.fields o _ _ (fun h => h)

/-- After the merge, `pubsub#access_model` reads back the profile's value. -/
theorem mergeProfile_getValue_access (o : Form) :
    (mergeProfile o).getValue "pubsub#access_model" = some (Value.s "whitelist") := by
  rw [mergeProfile_eq]
  apply mergeStep_getValue_self
  intro h
  rw [mergeStep_hasField_ne _ _ _ _ _ profile_keys_ne]
  exact h

/-- After the merge, `pubsub#persist_items` is present. -/
theorem mergeProfile_hasField_persist (o : Form) :
    (mergeProfile o).hasField "pubsub#persist_items" = true := by
  rw [mergeProfile_eq]
  rw [mergeStep_hasField_ne _ _ _ _ _ profile_keys_ne.symm]
  exact mergeStep_hasField_self o.fields o _ _ (fun h => h)

/-- After the merge, `pubsub#access_model` is present. -/
theorem mergeProfile_hasField_access (o : Form) :
    (mergeProfile o).hasField "pubsub#access_model" = true := by
  rw [mergeProfile_eq]
  apply mergeStep_hasField_self
  intro h
  rw [mergeStep_hasField_ne _ _ _ _ _ profile_keys_ne]
  exact h

/-- The merge changes the presence of no name other than the two profile
keys. -/
theorem mergeProfile_hasField_other (o : Form) (v : String)
    (h1 : v ≠ "pubsub#persist_items") (h2 : v ≠ "pubsub#access_model") :
    (mergeProfile o).hasField v = o.hasField v := by
  rw [mergeProfile_eq]
  rw [mergeStep_hasField_ne _ _ _ _ _ h2.symm]
  rw [mergeStep_hasField_ne _ _ _ _ _ h1.symm]

/-- The profile merge is idempotent. -/
theorem mergeProfile_idem (o : Form) :
    mergeProfile (mergeProfile o) = mergeProfile o := by
  have h1 : (mergeProfile o).hasField "pubsub#persist_items" = true :=
    mergeProfile_hasField_persist o
  have h2 : (mergeProfile o).hasField "pubsub#access_model" = true :=
    mergeProfile_hasField_access o
  rw [mergeProfile_eq (mergeProfile o)]
  rw [mergeStep_id _ _ _ _ h1 (mergeProfile_getValue_persist o)]
  rw [mergeStep_id _ _ _ _ h2 (mergeProfile_getValue_access o)]

/-! Claim theorems. -/

/-- C1: for every caller-supplied options form and every profile entry
`(f, v)`, the options merged by `store` contain the field `f` with the
profile's value `v` — so a caller field with a conflicting value is
overwritten, and a missing profile field is added with the profile's
value. -/
theorem claim_C1 (stanza : String) (node id ifrom : Option String)
    (timeout : Option Nat) (options : Form) (f : String) (v : Value)
    (hmem : (f, v) ∈ profile) :
    ((store stanza node id ifrom (some options) timeout).options.getValue f
        = some v) ∧
    ((store stanza node id ifrom (some options) timeout).options.hasField f
        = true) := by
  have hopts : (store stanza node id ifrom (some options) timeout).options
      = mergeProfile options := rfl
  rw [hopts]
  have hcases : f = "pubsub#persist_items" ∧ v = Value.b true ∨
      f = "pubsub#access_model" ∧ v = Value.s "whitelist" := by
    simpa [profile, Prod.ext_iff] using hmem
  rcases hcases with ⟨rfl, rfl⟩ | ⟨rfl, rfl⟩
  · exact ⟨mergeProfile_getValue_persist options, mergeProfile_hasField_persist options⟩
  · exact ⟨mergeProfile_getValue_access options, mergeProfile_hasField_access options⟩

/-- Witness for C1: a caller options form carrying `pubsub#access_model`
with the conflicting value `"open"` ends up with the profile's
`"whitelist"`. -/
theorem claim_C1_witness :
    (("pubsub#access_model", Value.s "whitelist") ∈ profile) ∧
    ((store "x" none none none
        (some { ftype := some "submit",
                fields := [FormField.mk "pubsub#access_model" none
                  (some (Value.s "open"))] })
        none).options.getValue "pubsub#access_model"
        = some (Value.s "whitelist")) ∧
    ((store "x" none none none
        (some { ftype := some "submit",
                fields := [FormField.mk "pubsub#access_model" none
                  (some (Value.s "open"))] })
        none).options.hasField "pubsub#access_model" = true) := by
  have h := claim_C1 "x" none none none none
    { ftype := some "submit",
      fields := [FormField.mk "pubsub#access_model" none (some (Value.s "open"))] }
    "pubsub#access_model" (Value.s "whitelist") (by simp [profile])
  exact ⟨by simp [profile], h.1, h.2⟩

/-- C2: when `store` is called without options, the downstream publish call
receives a submission-type form holding exactly the hidden FORM_TYPE field
with the publish-options namespace, then the two profile fields with the
profile's values, and nothing else. -/
theorem claim_C2 (stanza : String) (node id ifrom : Option String)
    (timeout : Option Nat) :
    (store stanza node id ifrom none timeout).options =
      { ftype := some "submit",
        fields := [FormField.mk "FORM_TYPE" (some "hidden")
                     (some (Value.s publishOptionsNS)),
                   FormField.mk "pubsub#persist_items" none (some (Value.b true)),
                   FormField.mk "pubsub#access_model" none
                     (some (Value.s "whitelist"))] } := rfl

/-- C3: the profile merge performed by `store` is idempotent: merging twice
equals merging once, and feeding `store`'s merged options back into `store`
hands the same options downstream. -/
theorem claim_C3 (stanza : String) (node id ifrom : Option String)
    (timeout : Option Nat) (options : Form) :
    (mergeProfile (mergeProfile options) = mergeProfile options) ∧
    ((store stanza node id ifrom
        (some ((store stanza node id ifrom (some options) timeout).options))
        timeout).options
      = (store stanza node id ifrom (some options) timeout).options) := by
  refine ⟨mergeProfile_idem options, ?_⟩
  show mergeProfile (mergeProfile options) = mergeProfile options
  exact mergeProfile_idem options

/-- C4: a caller-supplied options form lacking FORM_TYPE still lacks
FORM_TYPE after the merge — `store` adds FORM_TYPE only to the form it
synthesizes itself. -/
theorem claim_C4 (stanza : String) (node id ifrom : Option String)
    (timeout : Option Nat) (options : Form)
    (h : options.hasField "FORM_TYPE" = false) :
    (store stanza node id ifrom (some options) timeout).options.hasField
      "FORM_TYPE" = false := by
  show (mergeProfile options).hasField "FORM_TYPE" = false
  rw [mergeProfile_hasField_other options _ (by decide) (by decide)]
  exact h

/-- Witness for C4: a form with one unrelated field and no FORM_TYPE. -/
theorem claim_C4_witness :
    (({ ftype := some "submit",
        fields := [FormField.mk "muc#roomconfig" none none] } : Form).hasField
          "FORM_TYPE" = false) ∧
    ((store "x" none none none
        (some { ftype := some "submit",
                fields := [FormField.mk "muc#roomconfig" none none] })
        none).options.hasField "FORM_TYPE" = false) :=
  ⟨rfl, claim_C4 "x" none none none none
    { ftype := some "submit", fields := [FormField.mk "muc#roomconfig" none none] }
    rfl⟩

/-- C5 (code bug): `store` forwards the item, node, merged options, sender
and timeout to publish, but drops the caller's `id`: although the call
supplies `id = "item1"` (documented by `store`'s own docstring as "the ID of
the item"), the publish call's item-id parameter is left at its default
`None`. -/
theorem claim_C5 :
    ((store "payload" (some "urn:example") (some "item1")
        (some "alice@example.com") none (some 5)).id = none) ∧
    ((store "payload" (some "urn:example") (some "item1")
        (some "alice@example.com") none (some 5)).item = "payload") ∧
    ((store "payload" (some "urn:example") (some "item1")
        (some "alice@example.com") none (some 5)).node = some "urn:example") ∧
    ((store "payload" (some "urn:example") (some "item1")
        (some "alice@example.com") none (some 5)).ifrom
        = some "alice@example.com") ∧
    ((store "payload" (some "urn:example") (some "item1")
        (some "alice@example.com") none (some 5)).timeout = some 5) :=
  ⟨rfl, rfl, rfl, rfl, rfl⟩

/-- C6: the identifier sequence sent to get-items is the caller's `item_ids`
(empty when absent) with `id` appended last when supplied — order preserved,
no deduplication; in particular `["A","B"]` with id `"X"` yields
`["A","B","X"]`, and absent/absent yields `[]`. -/
theorem claim_C6 (node : String) (id : Option String)
    (item_ids : Option (List String)) (ifrom : Option String)
    (timeout : Option Nat) :
    ((retrieve node id item_ids ifrom timeout).item_ids
        = (item_ids.getD []) ++ (match id with | none => [] | some x => [x])) ∧
    ((retrieve node (some "X") (some ["A", "B"]) ifrom timeout).item_ids
        = ["A", "B", "X"]) ∧
    ((retrieve node none none ifrom timeout).item_ids = []) := by
  refine ⟨?_, rfl, rfl⟩
  cases item_ids <;> cases id <;> simp [retrieve]

/-- C7: for every profile entry `(f, v)`, the submission-type form handed to
set-node-config by `configure` contains exactly one field named `f`, and its
value is the profile's `v`. -/
theorem claim_C7 (node : String) (ifrom : Option String) (timeout : Option Nat)
    (f : String) (v : Value) (hmem : (f, v) ∈ profile) :
    (((configure node ifrom timeout).config.fields.filter
        (fun g => g.var == f)).length = 1) ∧
    ((configure node ifrom timeout).config.getValue f = some v) ∧
    ((configure node ifrom timeout).config.ftype = some "submit") := by
  have hcases : f = "pubsub#persist_items" ∧ v = Value.b true ∨
      f = "pubsub#access_model" ∧ v = Value.s "whitelist" := by
    simpa [profile, Prod.ext_iff] using hmem
  rcases hcases with ⟨rfl, rfl⟩ | ⟨rfl, rfl⟩
  · exact ⟨rfl, rfl, rfl⟩
  · exact ⟨rfl, rfl, rfl⟩

/-- Witness for C7 at the profile's first entry. -/
theorem claim_C7_witness :
    (("pubsub#persist_items", Value.b true) ∈ profile) ∧
    (((configure "urn:example" none none).config.fields.filter
        (fun g => g.var == "pubsub#persist_items")).length = 1) ∧
    ((configure "urn:example" none none).config.getValue "pubsub#persist_items"
        = some (Value.b true)) ∧
    ((configure "urn:example" none none).config.ftype = some "submit") := by
  have h := claim_C7 "urn:example" none none "pubsub#persist_items"
    (Value.b true) (by simp [profile])
  exact ⟨by simp [profile], h.1, h.2.1, h.2.2⟩

/-- C8 counterexample: the identifier sequence is not freshly constructed
per call — `retrieve` appends into the caller's list object, so calling it
twice with the very same arguments (same node, same id, same list reference)
sends `["A","B","X"]` first and `["A","B","X","X"]` second. -/
theorem claim_C8_counterexample :
    ((retrieveS (fun a => ["A", "B"]) "n" (some "X") (some 0) none
        none).2.item_ids = ["A", "B", "X"]) ∧
    ((retrieveS ((retrieveS (fun a => ["A", "B"]) "n" (some "X") (some 0) none
        none).1) "n" (some "X") (some 0) none none).2.item_ids
        = ["A", "B", "X", "X"]) :=
  ⟨rfl, rfl⟩

/-- C8 amended: when the caller supplies no list and no options, the request
is freshly built and depends only on the arguments (the heap is untouched and
irrelevant); but a caller-supplied `item_ids` list is mutated in place and
handed downstream as-is, so the request reflects — and changes — the caller's
object. -/
theorem claim_C8 (sig sig2 : Nat → List String) (node : String)
    (id : Option String) (ifrom : Option String) (timeout : Option Nat)
    (h : FormHeap) (stanza : String) (pnode pid pifrom : Option String)
    (ptimeout : Option Nat) (r : Nat) (x : String) :
    ((retrieveS sig node id none ifrom timeout).1 = sig) ∧
    ((retrieveS sig node id none ifrom timeout).2
        = (retrieveS sig2 node id none ifrom timeout).2) ∧
    ((storeS h stanza pnode pid pifrom none ptimeout).2.optionsVal
        = mergeProfile synthesizedOptions) ∧
    ((storeS h stanza pnode pid pifrom none ptimeout).1.mem
        = fun a => if a = h.next then mergeProfile synthesizedOptions
                   else h.mem a) ∧
    ((retrieveS sig node (some x) (some r) ifrom timeout).1 r = sig r ++ [x]) ∧
    ((retrieveS sig node (some x) (some r) ifrom timeout).2.item_ids
        = sig r ++ [x]) := by
  refine ⟨?_, ?_, ?_, ?_, ?_, ?_⟩
  · cases id <;> rfl
  · cases id <;> rfl
  · simp [storeS]
  · funext a
    by_cases ha : a = h.next <;> simp [storeS, ha]
  · simp [retrieveS]
  · simp [retrieveS]

/-- C9 counterexample: a caller-supplied empty options form is not discarded:
the options handed downstream lack the FORM_TYPE field that the synthesized
form carries, so the empty form was merged, not replaced. -/
theorem claim_C9_counterexample :
    ((store "x" none none none (some { ftype := some "submit", fields := [] })
        none).options
      ≠ (store "x" none none none none none).options) ∧
    ((store "x" none none none (some { ftype := some "submit", fields := [] })
        none).options.hasField "FORM_TYPE" = false) ∧
    ((store "x" none none none none none).options.hasField "FORM_TYPE"
        = true) := by
  refine ⟨by decide, rfl, rfl⟩

/-- C9 amended: `store` synthesizes a fresh options form exactly when the
options argument is absent (`None`); a caller-supplied Form object — the
empty form included — is truthy, so it is kept and merged as-is. -/
theorem claim_C9 (stanza : String) (node id ifrom : Option String)
    (timeout : Option Nat) (options : Form) :
    ((store stanza node id ifrom (some options) timeout).options
        = mergeProfile options) ∧
    ((store stanza node id ifrom none timeout).options
        = mergeProfile synthesizedOptions) ∧
    (options.pyTruthy = true) :=
  ⟨rfl, rfl, rfl⟩

/-- C10: with a truthy caller-supplied options object, `store` mutates that
very object in place — after the call the caller's address holds the merged
form, every other address is untouched — and the object handed to publish is
the caller's object itself (same address), holding the merged form. -/
theorem claim_C10 (h : FormHeap) (r : Nat) (stanza : String)
    (node id ifrom : Option String) (timeout : Option Nat)
    (htruthy : (h.mem r).pyTruthy = true) :
    ((storeS h stanza node id ifrom (some r) timeout).2.optionsRef = r) ∧
    ((storeS h stanza node id ifrom (some r) timeout).1.mem
        = fun a => if a = r then mergeProfile (h.mem r) else h.mem a) ∧
    ((storeS h stanza node id ifrom (some r) timeout).2.optionsVal
        = mergeProfile (h.mem r)) := by
  refine ⟨rfl, rfl, ?_⟩
  simp [storeS, Form.pyTruthy]

/-- Witness for C10: a one-object heap holding a form with a conflicting
access model. -/
theorem claim_C10_witness :
    ((FormHeap.mk
        (fun a => { ftype := some "submit",
                    fields := [FormField.mk "pubsub#access_model" none
                      (some (Value.s "open"))] }) 1).mem 0).pyTruthy = true ∧
    (((storeS (FormHeap.mk
        (fun a => { ftype := some "submit",
                    fields := [FormField.mk "pubsub#access_model" none
                      (some (Value.s "open"))] }) 1) "x" none none none (some 0)
        none).2.optionsRef = 0) ∧
    ((storeS (FormHeap.mk
        (fun a => { ftype := some "submit",
                    fields := [FormField.mk "pubsub#access_model" none
                      (some (Value.s "open"))] }) 1) "x" none none none (some 0)
        none).1.mem
        = fun a => if a = 0 then
            mergeProfile ((FormHeap.mk
              (fun a => { ftype := some "submit",
                          fields := [FormField.mk "pubsub#access_model" none
                            (some (Value.s "open"))] }) 1).mem 0)
          else (FormHeap.mk
              (fun a => { ftype := some "submit",
                          fields := [FormField.mk "pubsub#access_model" none
                            (some (Value.s "open"))] }) 1).mem a) ∧
    ((storeS (FormHeap.mk
        (fun a => { ftype := some "submit",
                    fields := [FormField.mk "pubsub#access_model" none
                      (some (Value.s "open"))] }) 1) "x" none none none (some 0)
        none).2.optionsVal
        = mergeProfile ((FormHeap.mk
            (fun a => { ftype := some "submit",
                        fields := [FormField.mk "pubsub#access_model" none
                          (some (Value.s "open"))] }) 1).mem 0))) :=
  ⟨rfl, claim_C10 (FormHeap.mk
      (fun a => { ftype := some "submit",
                  fields := [FormField.mk "pubsub#access_model" none
                    (some (Value.s "open"))] }) 1) 0 "x" none none none none rfl⟩
